import Mathlib

/-!
Verification development for the SQL-query subgraph of an NL-to-SQL chatbot
(`ai_agentic_chatbot/agent/subgraphs/sql_query/`): the validator node, the
executor's error classifier, the retrieval-expansion helper, the generator's
attempt counter and the routing functions, shallowly embedded as executable
Lean functions operating on the pipeline state record.

Python strings are modelled as `List Char`; the handful of concrete regular
expressions used by the source are modelled by a small token-list matcher
(`Tok`, `matchHere`) whose tokens translate each regex verbatim.  External
effects (LLM completion, embedding search, database execution) are passed in
as explicit oracle arguments so every node is a total function.
-/

namespace SqlSubgraph

/-- Apostrophe character (written via its code point). -/
def sq : Char := Char.ofNat 39

/-- Double-quote character (written via its code point). -/
def dq : Char := Char.ofNat 34

/-- Newline character. -/
def nl : Char := Char.ofNat 10

/-- Python `\s` / `str.strip` whitespace: space, tab, newline, carriage
return, vertical tab, form feed. -/
def isWs (c : Char) : Bool :=
  c == ' ' || c == Char.ofNat 9 || c == nl || c == Char.ofNat 13 ||
  c == Char.ofNat 11 || c == Char.ofNat 12

/-- Python `\w` word character (ASCII range, as in the queries at hand). -/
def isWordChar (c : Char) : Bool := c.isAlphanum || c == '_'

/-- `str.upper` on the character list (ASCII). -/
def upperChars (s : List Char) : List Char := s.map Char.toUpper

/-- `str.lower` on the character list (ASCII). -/
def lowerChars (s : List Char) : List Char := s.map Char.toLower

/-- `str.strip()`. -/
def stripChars (s : List Char) : List Char :=
  ((s.dropWhile isWs).reverse.dropWhile isWs).reverse

/-- Python substring test `pat in s`. -/
def containsSub (pat : List Char) : List Char → Bool
  | [] => pat.isEmpty
  | c :: rest => pat.isPrefixOf (c :: rest) || containsSub pat rest

/-- Python `str.split(sep)` for a one-character separator: every occurrence
splits, empty pieces are kept. -/
def splitOnChar (sep : Char) : List Char → List (List Char)
  | [] => [[]]
  | c :: rest =>
    match splitOnChar sep rest with
    | [] => [[]]
    | piece :: pieces =>
      if c == sep then [] :: piece :: pieces else (c :: piece) :: pieces

/-- Does `\bk\b` match at this position (`prev` is the preceding character,
if any)?  All keywords scanned this way consist of word characters. -/
def wbAt (k : List Char) (prev : Option Char) (s : List Char) : Bool :=
  k.isPrefixOf s &&
  (match prev with | none => true | some p => !isWordChar p) &&
  (match s.drop k.length with | [] => true | c :: _ => !isWordChar c)

/-- Scan for a word-boundary match of `k` anywhere in the remaining text. -/
def wbSearchAux (k : List Char) (prev : Option Char) : List Char → Bool
  | [] => wbAt k prev []
  | c :: rest => wbAt k prev (c :: rest) || wbSearchAux k (some c) rest

/-- `re.search(rf"\b{k}\b", s)` truthiness. -/
def wbSearch (k : List Char) (s : List Char) : Bool := wbSearchAux k none s

/-- Tokens of the concrete regexes the validator uses: literal text, `\s+`,
`\s*`, `\d+`, `.*` with `re.DOTALL`, `.*` without it, and `[^']*`. -/
inductive Tok where
  | lit (cs : List Char)
  | ws1
  | ws0
  | digits1
  | digits0
  | gapA
  | gapN
  | notq0
  deriving Repr

/-- Backtracking matcher for a token list at the start of `s`.  `fuel` only
bounds the recursion depth; `matchAt` always supplies enough. -/
def matchHere : Nat → List Tok → List Char → Bool
  | 0, _, _ => false
  | _ + 1, [], _ => true
  | fuel + 1, Tok.lit cs :: ts, s =>
      cs.isPrefixOf s && matchHere fuel ts (s.drop cs.length)
  | fuel + 1, Tok.ws1 :: ts, s =>
      match s with
      | [] => false
      | c :: rest => isWs c && matchHere fuel (Tok.ws0 :: ts) rest
  | fuel + 1, Tok.ws0 :: ts, s =>
      matchHere fuel ts s ||
      (match s with
       | [] => false
       | c :: rest => isWs c && matchHere fuel (Tok.ws0 :: ts) rest)
  | fuel + 1, Tok.digits1 :: ts, s =>
      match s with
      | [] => false
      | c :: rest => c.isDigit && matchHere fuel (Tok.digits0 :: ts) rest
  | fuel + 1, Tok.digits0 :: ts, s =>
      matchHere fuel ts s ||
      (match s with
       | [] => false
       | c :: rest => c.isDigit && matchHere fuel (Tok.digits0 :: ts) rest)
  | fuel + 1, Tok.gapA :: ts, s =>
      matchHere fuel ts s ||
      (match s with
       | [] => false
       | _ :: rest => matchHere fuel (Tok.gapA :: ts) rest)
  | fuel + 1, Tok.gapN :: ts, s =>
      matchHere fuel ts s ||
      (match s with
       | [] => false
       | c :: rest => (c != nl) && matchHere fuel (Tok.gapN :: ts) rest)
  | fuel + 1, Tok.notq0 :: ts, s =>
      matchHere fuel ts s ||
      (match s with
       | [] => false
       | c :: rest => (c != sq) && matchHere fuel (Tok.notq0 :: ts) rest)

/-- Match the token list at the start of `s`; each recursion step of
`matchHere` consumes a token or a character, so this fuel suffices. -/
def matchAt (ts : List Tok) (s : List Char) : Bool :=
  matchHere (s.length + ts.length + 1) ts s

/-- `re.search` truthiness: try every starting position left to right. -/
def searchPat (ts : List Tok) : List Char → Bool
  | [] => matchAt ts []
  | c :: rest => matchAt ts (c :: rest) || searchPat ts rest

/-- Shorthand: literal token from a string. -/
def litT (s : String) : Tok := Tok.lit s.toList

/-! ### Validator checks (`nodes/validate_query.py`) -/

/-- `_is_select_only`: must start with `SELECT` or `WITH` after
upper-casing and stripping, and at most one non-empty `;`-delimited
statement. -/
def _is_select_only (query : String) : Bool :=
  let qU := stripChars (upperChars query.toList)
  if !( "SELECT".toList.isPrefixOf qU || "WITH".toList.isPrefixOf qU) then
    false
  else
    let statements := splitOnChar ';' qU
    let nonEmpty := ((statements.map stripChars).filter (fun s => !s.isEmpty))
    decide (nonEmpty.length ≤ 1)

/-- The denylist of `_check_dangerous_keywords` (verbatim, including the two
lower-case entries that can never match the upper-cased query). -/
def dangerous_keywords : List String :=
  [ "DROP", "DELETE", "TRUNCATE", "INSERT", "UPDATE",
    "ALTER", "CREATE", "GRANT", "REVOKE", "MERGE",
    "EXEC", "EXECUTE", "xp_cmdshell", "sp_executesql",
    "BULK", "OPENROWSET", "OPENDATASOURCE"]

/-- `_check_dangerous_keywords`: word-boundary scan of the upper-cased query
for each denylisted keyword. -/
def _check_dangerous_keywords (query : String) : List String :=
  let qU := upperChars query.toList
  dangerous_keywords.filterMap (fun k =>
    if wbSearch k.toList qU then some ("Dangerous keyword detected: " ++ k)
    else none)

/-- The `injection_patterns` table: each regex of the source rendered as a
token list (searched with `re.DOTALL`, hence `gapA` for `.*`), paired with
its message.  The `information_schema` / `pg_` / `pg_sleep` literals are kept
lower-case exactly as in the source (they are compared against the
upper-cased query). -/
def injection_patterns : List (List Tok × String) :=
  [ ([Tok.lit [';'], Tok.gapA, litT "DROP"],
     "Potential injection: multiple statements with DROP"),
    ([Tok.lit [';'], Tok.gapA, litT "DELETE"],
     "Potential injection: multiple statements with DELETE"),
    ([Tok.lit [';'], Tok.gapA, litT "INSERT"],
     "Potential injection: multiple statements with INSERT"),
    ([Tok.lit [';'], Tok.gapA, litT "UPDATE"],
     "Potential injection: multiple statements with UPDATE"),
    ([Tok.lit ['-', '-'], Tok.gapA, litT "DROP"],
     "Potential injection: comment with DROP"),
    ([Tok.lit ['/', '*'], Tok.gapA, Tok.lit ['*', '/']],
     "Block comments not allowed for security"),
    ([litT "UNION", Tok.gapA, litT "SELECT", Tok.gapA, litT "FROM",
      Tok.gapA, litT "information_schema"],
     "Potential schema enumeration attack"),
    ([litT "UNION", Tok.gapA, litT "SELECT", Tok.gapA, litT "FROM",
      Tok.gapA, litT "pg_"],
     "Potential PostgreSQL system table access"),
    ([Tok.lit [sq], Tok.gapA, litT "OR", Tok.gapA, Tok.lit [sq],
      Tok.gapA, Tok.lit ['='], Tok.gapA, Tok.lit [sq]],
     "Potential OR-based injection"),
    ([Tok.lit [sq], Tok.gapA, litT "AND", Tok.gapA, Tok.lit [sq],
      Tok.gapA, Tok.lit ['='], Tok.gapA, Tok.lit [sq]],
     "Potential AND-based injection"),
    ([Tok.lit ['1'], Tok.ws0, Tok.lit ['='], Tok.ws0, Tok.lit ['1']],
     "Potential tautology injection"),
    ([Tok.lit [sq], Tok.gapA, Tok.lit [';'], Tok.ws0, Tok.lit ['-', '-']],
     "Potential comment-based injection"),
    ([litT "WAITFOR", Tok.ws1, litT "DELAY"],
     "Time-based attack pattern"),
    ([litT "BENCHMARK", Tok.ws0, Tok.lit ['(']],
     "MySQL benchmark attack pattern"),
    ([litT "pg_sleep", Tok.ws0, Tok.lit ['(']],
     "PostgreSQL sleep attack pattern")]

/-- `_check_injection_patterns`: run every pattern over the upper-cased
query, collecting the messages of those that match, in table order. -/
def _check_injection_patterns (query : String) : List String :=
  let qU := upperChars query.toList
  injection_patterns.filterMap (fun pm =>
    if searchPat pm.1 qU then some pm.2 else none)

/-- The `allowed_patterns` of the FROM-clause rule: constant or
function-only SELECT forms that are allowed to lack a FROM clause. -/
def allowed_patterns : List (List Tok) :=
  [ [litT "SELECT", Tok.ws1, Tok.digits1],
    [litT "SELECT", Tok.ws1, Tok.lit [sq], Tok.notq0, Tok.lit [sq]],
    [litT "SELECT", Tok.ws1, litT "NOW()"],
    [litT "SELECT", Tok.ws1, litT "CURRENT_"],
    [litT "SELECT", Tok.ws1, litT "VERSION()"]]

/-- `_check_basic_syntax` (renamed: the Lean identifier avoids the original
suffix): balanced parentheses and quotes, non-empty query, FROM-clause
presence outside the allow-list, and at most one semicolon.  Errors are
accumulated in the source's append order. -/
def _check_syntax_basic (query : String) : List String :=
  let q := query.toList
  let qU := upperChars q
  (if !(q.count '(' == q.count ')') then ["Unbalanced parentheses"] else [])
  ++ (if !((q.count sq) % 2 == 0) then ["Unbalanced single quotes"] else [])
  ++ (if !((q.count dq) % 2 == 0) then ["Unbalanced double quotes"] else [])
  ++ (if (stripChars q).isEmpty then ["Empty query"] else [])
  ++ (if containsSub ( "SELECT".toList) qU && !containsSub ( "FROM".toList) qU then
        (if allowed_patterns.any (fun p => searchPat p qU) then []
         else ["SELECT requires FROM clause"])
      else [])
  ++ (if 1 < q.count ';' then
        ["Multiple semicolons detected - only one statement allowed"]
      else [])

/-- The aggregate-only shapes that excuse a missing LIMIT clause. -/
def simple_patterns : List (List Tok) :=
  [ [litT "SELECT", Tok.ws1, litT "COUNT("],
    [litT "SELECT", Tok.ws1, litT "MAX("],
    [litT "SELECT", Tok.ws1, litT "MIN("],
    [litT "SELECT", Tok.ws1, litT "AVG("],
    [litT "SELECT", Tok.ws1, litT "SUM("]]

/-- The `expensive_patterns` table (regexes without `re.DOTALL`, hence
`gapN`), paired with their messages. -/
def expensive_patterns : List (List Tok × String) :=
  [ ([litT "SELECT", Tok.ws1, Tok.lit ['*'], Tok.ws1, litT "FROM",
      Tok.gapN, litT "JOIN", Tok.gapN, litT "JOIN", Tok.gapN, litT "JOIN"],
     "Multiple JOINs without specific columns may be expensive"),
    ([litT "ORDER", Tok.ws1, litT "BY", Tok.gapN, Tok.lit [','],
      Tok.gapN, Tok.lit [','], Tok.gapN, Tok.lit [',']],
     "Complex ORDER BY with many columns may be expensive"),
    ([litT "GROUP", Tok.ws1, litT "BY", Tok.gapN, Tok.lit [','],
      Tok.gapN, Tok.lit [','], Tok.gapN, Tok.lit [','], Tok.gapN, Tok.lit [',']],
     "Complex GROUP BY with many columns may be expensive"),
    ([litT "LIKE", Tok.ws1, Tok.lit [sq, '%'], Tok.gapN, Tok.lit ['%', sq]],
     "Leading wildcard LIKE patterns are expensive"),
    ([litT "NOT", Tok.ws1, litT "IN", Tok.ws1, litT "(SELECT"],
     "NOT IN with subquery can be expensive - consider NOT EXISTS")]

/-- Numeric value of a digit run, as Python `int`. -/
def digitsToNat (ds : List Char) : Nat :=
  ds.foldl (fun n c => n * 10 + (c.toNat - 48)) 0

/-- Does `LIMIT\s+(\d+)` match at this position?  If so, return the captured
(maximal) digit run's value. -/
def limitValueAt (s : List Char) : Option Nat :=
  if "LIMIT".toList.isPrefixOf s then
    let r := s.drop 5
    let w := r.takeWhile isWs
    if w.isEmpty then none
    else
      let d := (r.drop w.length).takeWhile Char.isDigit
      if d.isEmpty then none else some (digitsToNat d)
  else none

/-- `re.search(r"LIMIT\s+(\d+)", s)`: leftmost match's captured value. -/
def findLimitAux : List Char → Option Nat
  | [] => none
  | c :: rest =>
    match limitValueAt (c :: rest) with
    | some v => some v
    | none => findLimitAux rest

/-- The performance warnings of `_check_resource_limits`. -/
def expensive_warnings (qU : List Char) : List String :=
  expensive_patterns.filterMap (fun pm =>
    if searchPat pm.1 qU then some ("Performance warning: " ++ pm.2) else none)

/-- `_check_resource_limits`: require a LIMIT clause except for aggregate
shapes; cap the LIMIT value at 10000; append the performance warnings. -/
def _check_resource_limits (query : String) : List String :=
  (if containsSub ( "LIMIT".toList) (upperChars query.toList) then
     (match findLimitAux (upperChars query.toList) with
      | some v =>
        if 10000 < v then
          ["LIMIT " ++ toString v ++ " is too high - maximum allowed is 10000"]
        else []
      | none => [])
   else
     (if simple_patterns.any (fun p => searchPat p (upperChars query.toList)) then []
      else ["Query should include LIMIT clause to prevent excessive results"]))
  ++ expensive_warnings (upperChars query.toList)

/-! ### Pipeline state (`state.py`) and node updates

LangGraph nodes receive the current state dict and return a partial update
dict.  `SQLSubgraphState` models the state with `Option`-valued fields
(`none` = key absent / `None`; the nodes read every field through
`state.get(..., default)`, which conflates the two, as does the model).
Scores and times are modelled as `Rat` in place of Python floats; result
rows are modelled as already-serialized column/value pairs, abstracting
`_serialize_value`.  `NodeUpdate` has one `Option` field per dict key some
node actually writes; `none` means the key is absent from the update. -/

/-- `(table_name, ddl, score)` as produced by retrieval. -/
abbrev RetrievedTable := String × String × Rat

/-- One serialized result row. -/
abbrev Row := List (String × String)

/-- The table-descriptor fields `_expand_related_tables` reads. -/
structure TableDoc where
  name : String
  ddl : String
  deriving Repr, DecidableEq

/-- The state dict threaded through the subgraph (`SQLSubgraphState` in
`state.py`, plus the executor-written keys `execution_time`, `row_count`,
`has_more_results`, `error_category` that the executor and routes use). -/
structure SQLSubgraphState where
  user_query : String
  router_table_hints : Option (List String)
  retrieved_tables : Option (List RetrievedTable)
  generated_sql : Option String
  explanation : Option String
  confidence : Option Rat
  tables_used : Option (List String)
  is_safe : Option Bool
  validation_errors : Option (List String)
  query_result : Option (List Row)
  execution_error : Option String
  execution_time : Option Rat
  row_count : Option Nat
  has_more_results : Option Bool
  error_category : Option String
  generation_attempts : Option Nat
  max_retries : Option Nat
  deriving Repr, DecidableEq

/-- A partial state update returned by a node.  For `query_result` and
`execution_error` the written value is itself nullable (the executor writes
explicit `None`s), hence the nested `Option`. -/
structure NodeUpdate where
  retrieved_tables : Option (List RetrievedTable)
  generated_sql : Option String
  explanation : Option String
  confidence : Option Rat
  tables_used : Option (List String)
  is_safe : Option Bool
  validation_errors : Option (List String)
  query_result : Option (Option (List Row))
  execution_error : Option (Option String)
  execution_time : Option Rat
  row_count : Option Nat
  has_more_results : Option Bool
  error_category : Option String
  generation_attempts : Option Nat
  deriving Repr, DecidableEq

/-- The empty update (no keys). -/
def emptyUpdate : NodeUpdate :=
  ⟨none, none, none, none, none, none, none, none, none, none, none, none,
   none, none⟩

/-- An initial state: only the user query is present. -/
def mkInitState (q : String) : SQLSubgraphState :=
  ⟨q, none, none, none, none, none, none, none, none, none, none, none,
   none, none, none, none, none⟩

/-- Overwrite-if-present merge for one key. -/
def ov {α : Type} (new old : Option α) : Option α :=
  match new with
  | some v => some v
  | none => old

/-- Merge a node's update into the state.  Every key overwrites, except
`validation_errors`, whose channel is `Annotated[List[str], add]`: a written
list is appended to the existing one. -/
def applyUpdate (s : SQLSubgraphState) (u : NodeUpdate) : SQLSubgraphState where
  user_query := s.user_query
  router_table_hints := s.router_table_hints
  retrieved_tables := ov u.retrieved_tables s.retrieved_tables
  generated_sql := ov u.generated_sql s.generated_sql
  explanation := ov u.explanation s.explanation
  confidence := ov u.confidence s.confidence
  tables_used := ov u.tables_used s.tables_used
  is_safe := ov u.is_safe s.is_safe
  validation_errors :=
    match u.validation_errors with
    | some l => some (s.validation_errors.getD [] ++ l)
    | none => s.validation_errors
  query_result :=
    match u.query_result with
    | some v => v
    | none => s.query_result
  execution_error :=
    match u.execution_error with
    | some v => v
    | none => s.execution_error
  execution_time := ov u.execution_time s.execution_time
  row_count := ov u.row_count s.row_count
  has_more_results := ov u.has_more_results s.has_more_results
  error_category := ov u.error_category s.error_category
  generation_attempts := ov u.generation_attempts s.generation_attempts
  max_retries := s.max_retries

/-! ### Nodes -/

/-- `validate_query_node`: short-circuit on missing/empty SQL, otherwise run
the five checks and collect all errors in order; safe iff no errors. -/
def validate_query_node (state : SQLSubgraphState) : NodeUpdate :=
  match state.generated_sql with
  | none =>
    { emptyUpdate with
        is_safe := some false
        validation_errors := some ["No SQL query to validate"] }
  | some sql_query =>
    if sql_query.isEmpty then
      { emptyUpdate with
          is_safe := some false
          validation_errors := some ["No SQL query to validate"] }
    else
      let errors :=
        (if _is_select_only sql_query then []
         else ["Only SELECT queries are allowed"])
        ++ _check_dangerous_keywords sql_query
        ++ _check_injection_patterns sql_query
        ++ _check_syntax_basic sql_query
        ++ _check_resource_limits sql_query
      { emptyUpdate with
          is_safe := some errors.isEmpty
          validation_errors := some errors }

/-- The helper `expandExtra` is the list of rows the `for` loop of
`_expand_related_tables` appends: one row `(name, ddl, 0.5)` for each
non-retrieved descriptor whose DDL (upper-cased) contains
`REFERENCES <retrieved name (upper-cased)>` for some retrieved table. -/
def expandExtra (table_docs : List TableDoc) (retrieved : List RetrievedTable) :
    List RetrievedTable :=
  table_docs.filterMap (fun d =>
    if (retrieved.map (fun r => r.1)).contains d.name then none
    else if retrieved.any (fun r =>
        containsSub ( "REFERENCES ".toList ++ upperChars r.1.toList)
          (upperChars d.ddl.toList)) then
      some (d.name, d.ddl, (1 / 2 : Rat))  -- source literal 0.5
    else none)

/-- `_expand_related_tables`: copy the retrieved list, then append the
related rows found by the scan. -/
def _expand_related_tables (table_docs : List TableDoc)
    (retrieved : List RetrievedTable) : List RetrievedTable :=
  retrieved ++ expandExtra table_docs retrieved

/-- `retrieve_schemas_node`.  The semantic search (`_semantic_search`, an
embedding-service call) is abstracted as the `search` oracle: `Except.error`
models any exception reaching the node's `try` block, `Except.ok` its
returned list.  On a non-empty result the node runs relationship expansion
and — notably — writes `is_safe: True`. -/
def retrieve_schemas_node (table_docs : List TableDoc)
    (search : Except String (List RetrievedTable)) : NodeUpdate :=
  match search with
  | Except.error e =>
    { emptyUpdate with
        retrieved_tables := some []
        validation_errors := some ["Schema retrieval error: " ++ e] }
  | Except.ok retrieved =>
    if retrieved.isEmpty then
      { emptyUpdate with
          retrieved_tables := some []
          validation_errors := some ["No relevant tables found for query"] }
    else
      { emptyUpdate with
          retrieved_tables := some
            (if retrieved.length < (_expand_related_tables table_docs retrieved).length
             then _expand_related_tables table_docs retrieved
             else retrieved)
          is_safe := some true }

/-- The structured LLM output (`SQLGeneration` pydantic model). -/
structure SQLGeneration where
  query : String
  explanation : String
  confidence : Rat
  tables_used : List String
  warnings : Option (List String)
  deriving Repr, DecidableEq

/-- `generate_sql_node`.  The completion call is abstracted as the
`llmResult` oracle (`Except.error` = any exception in the `try` block).
Both the success and the failure branch write `generation_attempts + 1`. -/
def generate_sql_node (llmResult : Except String SQLGeneration)
    (state : SQLSubgraphState) : NodeUpdate :=
  if (state.retrieved_tables.getD []).isEmpty then
    { emptyUpdate with
        validation_errors := some ["Cannot generate SQL without table schemas"] }
  else
    match llmResult with
    | Except.ok r =>
      { emptyUpdate with
          generated_sql := some r.query
          explanation := some r.explanation
          confidence := some r.confidence
          tables_used := some r.tables_used
          generation_attempts := some (state.generation_attempts.getD 0 + 1) }
    | Except.error e =>
      { emptyUpdate with
          validation_errors := some ["Generation error: " ++ e]
          generation_attempts := some (state.generation_attempts.getD 0 + 1) }

/-- `_categorize_error`: ordered substring matching over the lower-cased
message; the first matching category wins. -/
def _categorize_error (error_msg : String) : String :=
  let l := lowerChars error_msg.toList
  let has := fun (p : String) => containsSub p.toList l
  if [ "syntax error", "invalid syntax", "unexpected token", "missing",
       "expected", "parse error"].any has then "syntax"
  else if [ "column", "table", "relation", "does not exist", "not found",
            "unknown column", "unknown table"].any has then "not_found"
  else if [ "permission denied", "access denied", "insufficient privileges",
            "not authorized"].any has then "permission"
  else if [ "connection", "timeout", "network", "host",
            "unreachable"].any has then "connection"
  else if [ "type", "cast", "convert", "invalid input",
            "data type"].any has then "type"
  else "unknown"

/-- `execute_query_node`.  The database is abstracted as the `db` oracle:
`Except.ok (rows, time)` models a successful `fetchmany` (rows already
serialized), `Except.error msg` any exception in the `try` block.  The node
refuses to touch the oracle unless `is_safe` is truthy and SQL is present. -/
def execute_query_node (db : String → Except String (List Row × Rat))
    (state : SQLSubgraphState) : NodeUpdate :=
  if !(state.is_safe.getD false) then
    { emptyUpdate with
        execution_error := some (some "Query failed safety validation") }
  else
    match state.generated_sql with
    | none => { emptyUpdate with execution_error := some (some "No SQL query to execute") }
    | some sql_query =>
      if sql_query.isEmpty then
        { emptyUpdate with execution_error := some (some "No SQL query to execute") }
      else
        match db sql_query with
        | Except.ok res =>
          { emptyUpdate with
              query_result := some (some (res.1.take 1000))
              execution_error := some none
              execution_time := some res.2
              row_count := some (res.1.take 1000).length
              has_more_results := some ((res.1.take 1000).length == 1000) }
        | Except.error e =>
          { emptyUpdate with
              query_result := some none
              execution_error := some (some e)
              error_category := some (_categorize_error e) }

/-! ### Routes (`routes.py`) -/

/-- `route_after_retrieval`. -/
def route_after_retrieval (state : SQLSubgraphState) : String :=
  if (state.retrieved_tables.getD []).isEmpty then "END" else "generate_sql"

/-- `route_after_generation`. -/
def route_after_generation (state : SQLSubgraphState) : String :=
  if !(state.validation_errors.getD []).isEmpty then "END"
  else
    match state.generated_sql with
    | none => "END"
    | some q => if q.isEmpty then "END" else "validate_query"

/-- `route_after_validation`. -/
def route_after_validation (state : SQLSubgraphState) : String :=
  if state.is_safe.getD false then "execute_query" else "END"

/-- `_is_retryable_error`. -/
def _is_retryable_error (error_category : String) : Bool :=
  if [ "syntax", "not_found", "type", "unknown"].contains error_category then
    true
  else if [ "permission", "connection"].contains error_category then false
  else true

/-- `route_after_execution`: success ends, exhausted retries end,
non-retryable categories end, otherwise retry generation. -/
def route_after_execution (state : SQLSubgraphState) : String :=
  if (state.execution_error.getD "").isEmpty then "END"
  else if state.max_retries.getD 2 ≤ state.generation_attempts.getD 0 then "END"
  else if !(_is_retryable_error (state.error_category.getD "unknown")) then "END"
  else "generate_sql"

/-! ### The wired subgraph (`graph.py`)

`runFromGenerate` executes the `generate_sql → validate_query →
execute_query → (retry | END)` portion of the compiled graph;
`runPipeline` prepends the `retrieve_schemas` entry point.  `fuel` bounds
the retry loop purely so the function is structural; a run that completes
within its fuel returns `some` final state, and the theorems quantify over
every completing run.  The oracles are indexed by the retry round. -/

def runFromGenerate (llm : Nat → Except String SQLGeneration)
    (db : Nat → String → Except String (List Row × Rat)) :
    Nat → Nat → SQLSubgraphState → Option SQLSubgraphState
  | 0, _, _ => none
  | fuel + 1, k, s =>
    let s1 := applyUpdate s (generate_sql_node (llm k) s)
    if route_after_generation s1 == "validate_query" then
      let s2 := applyUpdate s1 (validate_query_node s1)
      if route_after_validation s2 == "execute_query" then
        let s3 := applyUpdate s2 (execute_query_node (db k) s2)
        if route_after_execution s3 == "generate_sql" then
          runFromGenerate llm db fuel (k + 1) s3
        else some s3
      else some s2
    else some s1

def runPipeline (table_docs : List TableDoc)
    (search : Except String (List RetrievedTable))
    (llm : Nat → Except String SQLGeneration)
    (db : Nat → String → Except String (List Row × Rat))
    (fuel : Nat) (s0 : SQLSubgraphState) : Option SQLSubgraphState :=
  let s1 := applyUpdate s0 (retrieve_schemas_node table_docs search)
  if route_after_retrieval s1 == "generate_sql" then
    runFromGenerate llm db fuel 0 s1
  else some s1

/-- The validator input of spec Scenario 1. -/
def scenario1State : SQLSubgraphState :=
  { mkInitState "q" with
      generated_sql := some "SELECT name FROM users; DROP TABLE users;" }

/-- The final state of a concrete one-round pipeline run (retrieval finds
one table, the single generation attempt fails at the completion service,
the run ends): used to exhibit a completed run of `runPipeline`. -/
def c4RunResult : SQLSubgraphState :=
  { mkInitState "q" with
      retrieved_tables := some [("users", "CREATE TABLE users (id INT)", (1 : Rat))]
      is_safe := some true
      validation_errors := some ["Generation error: boom"]
      generation_attempts := some 1 }

/-! ### Helper lemmas -/

lemma ga_applyUpdate (s : SQLSubgraphState) (u : NodeUpdate) :
    (applyUpdate s u).generation_attempts =
      ov u.generation_attempts s.generation_attempts := rfl

lemma mr_applyUpdate (s : SQLSubgraphState) (u : NodeUpdate) :
    (applyUpdate s u).max_retries = s.max_retries := rfl

lemma validate_ga (s : SQLSubgraphState) :
    (validate_query_node s).generation_attempts = none := by
  unfold validate_query_node
  split
  · rfl
  · split
    · rfl
    · rfl

lemma execute_ga (db : String → Except String (List Row × Rat))
    (s : SQLSubgraphState) :
    (execute_query_node db s).generation_attempts = none := by
  unfold execute_query_node
  split
  · rfl
  · split
    · rfl
    · split
      · rfl
      · split
        · rfl
        · rfl

lemma generate_ga (l : Except String SQLGeneration) (s : SQLSubgraphState) :
    (generate_sql_node l s).generation_attempts = none ∨
    (generate_sql_node l s).generation_attempts =
      some (s.generation_attempts.getD 0 + 1) := by
  unfold generate_sql_node
  split
  · left; rfl
  · split
    · right; rfl
    · right; rfl

lemma retrieve_ga (docs : List TableDoc)
    (search : Except String (List RetrievedTable)) :
    (retrieve_schemas_node docs search).generation_attempts = none := by
  unfold retrieve_schemas_node
  split
  · rfl
  · split
    · rfl
    · rfl

/-- Routing back to generation requires remaining retry budget. -/
lemma retry_requires_budget (s : SQLSubgraphState)
    (h : route_after_execution s = "generate_sql") :
    s.generation_attempts.getD 0 < s.max_retries.getD 2 := by
  unfold route_after_execution at h
  split_ifs at h with h1 h2 h3
  · exact absurd h (by decide)
  · exact absurd h (by decide)
  · exact absurd h (by decide)
  · omega

/-- Attempt-counter bound for the generation/validation/execution loop:
every completed run ends with at most `max (start+1) max_retries`
generation attempts, and the retry budget is never rewritten. -/
lemma runFromGenerate_bound (llm : Nat → Except String SQLGeneration)
    (db : Nat → String → Except String (List Row × Rat)) :
    ∀ (fuel k : Nat) (s s' : SQLSubgraphState),
      runFromGenerate llm db fuel k s = some s' →
      s'.generation_attempts.getD 0 ≤
        max (s.generation_attempts.getD 0 + 1) (s.max_retries.getD 2)
      ∧ s'.max_retries = s.max_retries := by
  intro fuel
  induction fuel with
  | zero => intro k s s' h; simp [runFromGenerate] at h
  | succ n ih =>
    intro k s s' h
    rw [runFromGenerate] at h
    dsimp only at h
    set s1 := applyUpdate s (generate_sql_node (llm k) s) with hs1
    set s2 := applyUpdate s1 (validate_query_node s1) with hs2
    set s3 := applyUpdate s2 (execute_query_node (db k) s2) with hs3
    have hga1 : s1.generation_attempts.getD 0 = s.generation_attempts.getD 0 ∨
        s1.generation_attempts.getD 0 = s.generation_attempts.getD 0 + 1 := by
      rw [hs1, ga_applyUpdate]
      rcases generate_ga (llm k) s with hg | hg
      · rw [hg]; left; rfl
      · rw [hg]; right; rfl
    have hmr1 : s1.max_retries = s.max_retries := by rw [hs1, mr_applyUpdate]
    have hga2 : s2.generation_attempts = s1.generation_attempts := by
      rw [hs2, ga_applyUpdate, validate_ga]; rfl
    have hmr2 : s2.max_retries = s1.max_retries := by rw [hs2, mr_applyUpdate]
    have hga3 : s3.generation_attempts = s2.generation_attempts := by
      rw [hs3, ga_applyUpdate, execute_ga]; rfl
    have hmr3 : s3.max_retries = s2.max_retries := by rw [hs3, mr_applyUpdate]
    split at h
    · split at h
      · split at h
        · -- retry: recurse on s3
          have hlt := retry_requires_budget s3 (by
            rename_i hroute
            exact beq_iff_eq.mp hroute)
          obtain ⟨hb, hm⟩ := ih (k + 1) s3 s' h
          rw [hga3, hga2] at hlt hb
          rw [hmr3, hmr2, hmr1] at hlt hb hm
          refine ⟨?_, hm⟩
          rcases hga1 with hg | hg <;> rw [hg] at hlt hb <;> omega
        · -- execution done
          injection h with h'
          subst h'
          rw [hga3, hga2, hmr3, hmr2, hmr1]
          refine ⟨?_, rfl⟩
          rcases hga1 with hg | hg <;> rw [hg] <;> omega
      · -- stopped after validation
        injection h with h'
        subst h'
        rw [hga2, hmr2, hmr1]
        refine ⟨?_, rfl⟩
        rcases hga1 with hg | hg <;> rw [hg] <;> omega
    · -- stopped after generation
      injection h with h'
      subst h'
      rw [hmr1]
      refine ⟨?_, rfl⟩
      rcases hga1 with hg | hg <;> rw [hg] <;> omega

/-- A successful `LIMIT\s+(\d+)` search implies `LIMIT` occurs in the text
(so `_check_resource_limits` takes its LIMIT-present branch). -/
lemma findLimitAux_contains :
    ∀ (s : List Char) (v : Nat), findLimitAux s = some v →
      containsSub ( "LIMIT".toList) s = true := by
  intro s
  induction s with
  | nil => intro v h; simp [findLimitAux] at h
  | cons c rest ih =>
    intro v h
    rw [findLimitAux] at h
    cases hl : limitValueAt (c :: rest) with
    | some w =>
      have hp : ( "LIMIT".toList).isPrefixOf (c :: rest) = true := by
        cases hpf : ( "LIMIT".toList).isPrefixOf (c :: rest)
        · rw [limitValueAt, hpf] at hl; simp at hl
        · rfl
      rw [containsSub, hp, Bool.true_or]
    | none =>
      rw [hl] at h
      rw [containsSub, ih v h, Bool.or_true]

/-- A falsy `is_safe` reads as `False` through `state.get("is_safe", False)`. -/
lemma is_safe_getD_false {s : SQLSubgraphState} (h : s.is_safe ≠ some true) :
    s.is_safe.getD false = false := by
  cases hs : s.is_safe with
  | none => rfl
  | some b =>
    cases b
    · rfl
    · exact absurd hs h

/-- The executor's refusal output on an unvalidated state, for any oracle. -/
lemma exec_refusal (db : String → Except String (List Row × Rat))
    (s : SQLSubgraphState) (h : s.is_safe ≠ some true) :
    execute_query_node db s =
      { emptyUpdate with
          execution_error := some (some "Query failed safety validation") } := by
  unfold execute_query_node
  rw [is_safe_getD_false h]
  rfl

/-! ### Claim theorems -/

/-- C1: the spec says the execution error `"permission denied for relation
orders"` is classified `permission` and the pipeline terminates regardless
of remaining retries.  The code disagrees: the `not_found` indicator list is
checked before the `permission` one and contains the bare substring
`relation`, so `_categorize_error` returns `not_found` — a retryable
category — and `route_after_execution` routes back to `generate_sql` while
retry budget remains (here 0 attempts < 2 retries). -/
theorem permission_denied_misclassified_retries :
    _categorize_error "permission denied for relation orders" = "not_found"
    ∧ route_after_execution
        { mkInitState "q" with
            execution_error := some "permission denied for relation orders"
            error_category :=
              some (_categorize_error "permission denied for relation orders")
            generation_attempts := some 0
            max_retries := some 2 } = "generate_sql" := by
  decide

/-- C2 counterexample: `retrieve_schemas_node` — not the validator — writes
`is_safe` (it sets it to `True` whenever retrieval succeeds), refuting the
claim that only `validate_query_node` ever produces a value for `is_safe`. -/
theorem retrieve_schemas_writes_is_safe :
    (retrieve_schemas_node []
      (Except.ok [("users", "CREATE TABLE users (id INT)", (1 : Rat))])).is_safe
      = some true := by
  decide

/-- C2 amended: `is_safe` is written by the Validator (always) and by the
schema-retrieval node (set to `True` exactly on successful retrieval); the
generator and the executor never write it. -/
theorem is_safe_writers_characterized :
    (∀ (l : Except String SQLGeneration) (s : SQLSubgraphState),
        (generate_sql_node l s).is_safe = none)
    ∧ (∀ (db : String → Except String (List Row × Rat)) (s : SQLSubgraphState),
        (execute_query_node db s).is_safe = none)
    ∧ (∀ (docs : List TableDoc) (search : Except String (List RetrievedTable)),
        (retrieve_schemas_node docs search).is_safe = none ∨
        (retrieve_schemas_node docs search).is_safe = some true)
    ∧ (∀ s : SQLSubgraphState, ∃ b, (validate_query_node s).is_safe = some b) := by
  refine ⟨?_, ?_, ?_, ?_⟩
  · intro l s
    unfold generate_sql_node
    split
    · rfl
    · split
      · rfl
      · rfl
  · intro db s
    unfold execute_query_node
    split
    · rfl
    · split
      · rfl
      · split
        · rfl
        · split
          · rfl
          · rfl
  · intro docs search
    unfold retrieve_schemas_node
    split
    · left; rfl
    · split
      · left; rfl
      · right; rfl
  · intro s
    unfold validate_query_node
    split
    · exact ⟨false, rfl⟩
    · split
      · exact ⟨false, rfl⟩
      · exact ⟨_, rfl⟩

/-- C3: an execution failure whose `error_category` is `permission` or
`connection` is routed to END (never back to `generate_sql`), whatever
`generation_attempts` and `max_retries` hold. -/
theorem nonretryable_category_routes_end (s : SQLSubgraphState)
    (_hfail : (s.execution_error.getD "").isEmpty = false)
    (hcat : s.error_category = some "permission" ∨
            s.error_category = some "connection") :
    route_after_execution s = "END" := by
  unfold route_after_execution
  split_ifs with h1 h2 h3
  · rfl
  · rfl
  · rfl
  · exfalso
    rcases hcat with hc | hc <;> rw [hc] at h3 <;> exact h3 (by decide)

theorem nonretryable_category_routes_end_witness :
    ((({ mkInitState "q" with
          execution_error := some "permission denied"
          error_category := some "permission"
          generation_attempts := some 0
          max_retries := some 2 } : SQLSubgraphState).execution_error.getD
            "").isEmpty = false)
    ∧ route_after_execution
        { mkInitState "q" with
            execution_error := some "permission denied"
            error_category := some "permission"
            generation_attempts := some 0
            max_retries := some 2 } = "END" :=
  ⟨by decide,
   nonretryable_category_routes_end _ (by decide) (Or.inl rfl)⟩

/-- C4: the generator bumps `generation_attempts` by exactly one per
invocation (whenever schemas are present, which routing guarantees inside a
run), retrying requires `generation_attempts < max_retries`, and every
completed pipeline run that starts at 0 attempts ends with at most
`max_retries + 1` attempts. -/
theorem generation_attempts_bounded :
    (∀ (l : Except String SQLGeneration) (s : SQLSubgraphState),
        (state_nonempty : ¬(s.retrieved_tables.getD []).isEmpty = true) →
        (generate_sql_node l s).generation_attempts =
          some (s.generation_attempts.getD 0 + 1))
    ∧ (∀ s : SQLSubgraphState, route_after_execution s = "generate_sql" →
        s.generation_attempts.getD 0 < s.max_retries.getD 2)
    ∧ (∀ (docs : List TableDoc) (search : Except String (List RetrievedTable))
        (llm : Nat → Except String SQLGeneration)
        (db : Nat → String → Except String (List Row × Rat))
        (fuel : Nat) (s0 s' : SQLSubgraphState),
        s0.generation_attempts.getD 0 = 0 →
        runPipeline docs search llm db fuel s0 = some s' →
        s'.generation_attempts.getD 0 ≤ s0.max_retries.getD 2 + 1) := by
  refine ⟨?_, retry_requires_budget, ?_⟩
  · intro l s hne
    unfold generate_sql_node
    rw [if_neg hne]
    split
    · rfl
    · rfl
  · intro docs search llm db fuel s0 s' h0 hrun
    unfold runPipeline at hrun
    dsimp only at hrun
    set s1 := applyUpdate s0 (retrieve_schemas_node docs search) with hs1
    have hga1 : s1.generation_attempts = s0.generation_attempts := by
      rw [hs1, ga_applyUpdate, retrieve_ga]; rfl
    have hmr1 : s1.max_retries = s0.max_retries := by rw [hs1, mr_applyUpdate]
    split at hrun
    · obtain ⟨hb, _⟩ := runFromGenerate_bound llm db fuel 0 s1 s' hrun
      rw [hga1, hmr1, h0] at hb
      omega
    · injection hrun with h'
      subst h'
      rw [hga1, h0]
      omega

theorem generation_attempts_bounded_witness :
    (generate_sql_node (Except.error "boom")
        { mkInitState "q" with
            retrieved_tables :=
              some [("users", "CREATE TABLE users (id INT)", (1 : Rat))] }
      ).generation_attempts = some 1
    ∧ (route_after_execution
        { mkInitState "q" with
            execution_error := some "syntax error at or near FROM"
            error_category := some "syntax"
            generation_attempts := some 0
            max_retries := some 2 } = "generate_sql"
       ∧ ({ mkInitState "q" with
            execution_error := some "syntax error at or near FROM"
            error_category := some "syntax"
            generation_attempts := some 0
            max_retries := some 2 } : SQLSubgraphState).generation_attempts.getD 0
          < ({ mkInitState "q" with
            execution_error := some "syntax error at or near FROM"
            error_category := some "syntax"
            generation_attempts := some 0
            max_retries := some 2 } : SQLSubgraphState).max_retries.getD 2)
    ∧ (runPipeline [] (Except.ok [("users", "CREATE TABLE users (id INT)", (1 : Rat))])
          (fun _ => Except.error "boom") (fun _ _ => Except.error "x") 3
          (mkInitState "q") = some c4RunResult
       ∧ c4RunResult.generation_attempts.getD 0 ≤
          (mkInitState "q").max_retries.getD 2 + 1) :=
  ⟨generation_attempts_bounded.1 (Except.error "boom") _ (by decide),
   ⟨by decide, generation_attempts_bounded.2.1 _ (by decide)⟩,
   ⟨by decide,
    generation_attempts_bounded.2.2 []
      (Except.ok [("users", "CREATE TABLE users (id INT)", (1 : Rat))])
      (fun _ => Except.error "boom") (fun _ _ => Except.error "x") 3
      (mkInitState "q") c4RunResult (by decide) (by decide)⟩⟩

/-- C5: the validator is a pure function of the `generated_sql` field: two
states agreeing on it validate identically, whatever else they contain. -/
theorem validator_pure_function_of_sql (s t : SQLSubgraphState)
    (h : s.generated_sql = t.generated_sql) :
    validate_query_node s = validate_query_node t := by
  unfold validate_query_node
  rw [h]

theorem validator_pure_function_of_sql_witness :
    ({ mkInitState "a" with
        generated_sql := some "SELECT 1"
        is_safe := some false } : SQLSubgraphState).generated_sql
      = ({ mkInitState "b" with
            generated_sql := some "SELECT 1" } : SQLSubgraphState).generated_sql
    ∧ validate_query_node
        { mkInitState "a" with
            generated_sql := some "SELECT 1"
            is_safe := some false }
      = validate_query_node
          { mkInitState "b" with generated_sql := some "SELECT 1" } :=
  ⟨rfl, validator_pure_function_of_sql _ _ rfl⟩

/-- C6: whenever `LIMIT\s+(\d+)` matches with captured value above 10000,
the limit-exceeded error is reported; and at the boundary, `LIMIT 10001` is
rejected with exactly that error while the otherwise-identical
`LIMIT 10000` query passes every check. -/
theorem limit_ceiling_boundary :
    (∀ (q : String) (v : Nat),
        findLimitAux (upperChars q.toList) = some v → 10000 < v →
        ("LIMIT " ++ toString v ++ " is too high - maximum allowed is 10000")
          ∈ _check_resource_limits q)
    ∧ validate_query_node
        { mkInitState "q" with
            generated_sql := some "SELECT id FROM users LIMIT 10001" }
      = { emptyUpdate with
            is_safe := some false
            validation_errors :=
              some ["LIMIT 10001 is too high - maximum allowed is 10000"] }
    ∧ validate_query_node
        { mkInitState "q" with
            generated_sql := some "SELECT id FROM users LIMIT 10000" }
      = { emptyUpdate with
            is_safe := some true
            validation_errors := some [] } := by
  refine ⟨?_, by decide, by decide⟩
  intro q v hf hv
  have hc := findLimitAux_contains _ _ hf
  unfold _check_resource_limits
  rw [hc, hf]
  simp only [if_true, hv, if_pos]
  exact List.mem_append_left _ (List.mem_singleton.mpr rfl)

theorem limit_ceiling_boundary_witness :
    ("LIMIT " ++ toString 20000 ++ " is too high - maximum allowed is 10000")
      ∈ _check_resource_limits "SELECT id FROM users LIMIT 20000" :=
  limit_ceiling_boundary.1 "SELECT id FROM users LIMIT 20000" 20000
    (by decide) (by decide)

/-- C7: on `"SELECT name FROM users; DROP TABLE users;"` the validator
reports the DROP-keyword error together with the multiple-statement
violations (the SELECT-only shape error and the multiple-semicolon error),
and marks the query unsafe. -/
theorem multi_statement_drop_flagged :
    (validate_query_node scenario1State).is_safe = some false
    ∧ "Dangerous keyword detected: DROP"
        ∈ (validate_query_node scenario1State).validation_errors.getD []
    ∧ "Only SELECT queries are allowed"
        ∈ (validate_query_node scenario1State).validation_errors.getD []
    ∧ "Multiple semicolons detected - only one statement allowed"
        ∈ (validate_query_node scenario1State).validation_errors.getD [] := by
  decide

/-- C8: relationship expansion is additive and monotone: the result is the
input list unchanged and in order, followed only by rows built from
non-retrieved descriptors whose upper-cased DDL contains
`REFERENCES <name>` for some retrieved table name, each carrying the fixed
score 0.5 and the descriptor's own name and DDL. -/
theorem expand_related_tables_additive :
    ∀ (docs : List TableDoc) (retrieved : List RetrievedTable),
      _expand_related_tables docs retrieved = retrieved ++ expandExtra docs retrieved
      ∧ (expandExtra docs retrieved).all (fun e =>
          !((retrieved.map (fun r => r.1)).contains e.1)
          && (e.2.2 == (1 / 2 : Rat))
          && retrieved.any (fun r =>
              containsSub ( "REFERENCES ".toList ++ upperChars r.1.toList)
                (upperChars e.2.1.toList))
          && docs.any (fun d => e == (d.name, d.ddl, (1 / 2 : Rat)))) = true := by
  intro docs retrieved
  refine ⟨rfl, ?_⟩
  rw [List.all_eq_true]
  intro e he
  rw [expandExtra, List.mem_filterMap] at he
  obtain ⟨d, hd, hfd⟩ := he
  by_cases h1 : ((retrieved.map (fun r => r.1)).contains d.name) = true
  · rw [if_pos h1] at hfd
    exact absurd hfd (by simp)
  · rw [if_neg h1] at hfd
    by_cases h2 : (retrieved.any (fun r =>
        containsSub ( "REFERENCES ".toList ++ upperChars r.1.toList)
          (upperChars d.ddl.toList))) = true
    · rw [if_pos h2] at hfd
      injection hfd with he'
      subst he'
      simp only [Bool.and_eq_true]
      refine ⟨⟨⟨?_, ?_⟩, ?_⟩, ?_⟩
      · simp only [Bool.not_eq_true']
        exact Bool.not_eq_true _ ▸ (by simpa using h1)
      · exact beq_self_eq_true _
      · exact h2
      · exact List.any_eq_true.mpr ⟨d, hd, beq_self_eq_true _⟩
    · rw [if_neg h2] at hfd
      exact absurd hfd (by simp)

/-- C9: with `is_safe` absent or not `True`, the executor refuses: it
returns only `execution_error = "Query failed safety validation"`, and the
output is independent of the database oracle (no database call is made),
for every `generated_sql`. -/
theorem executor_refuses_unvalidated
    (db db' : String → Except String (List Row × Rat))
    (s : SQLSubgraphState) (h : s.is_safe ≠ some true) :
    execute_query_node db s =
      { emptyUpdate with
          execution_error := some (some "Query failed safety validation") }
    ∧ execute_query_node db s = execute_query_node db' s :=
  ⟨exec_refusal db s h, (exec_refusal db s h).trans (exec_refusal db' s h).symm⟩

theorem executor_refuses_unvalidated_witness :
    (({ mkInitState "q" with
        generated_sql := some "SELECT 1" } : SQLSubgraphState).is_safe
      ≠ some true)
    ∧ (execute_query_node (fun _ => Except.error "e")
        { mkInitState "q" with generated_sql := some "SELECT 1" }
      = { emptyUpdate with
            execution_error := some (some "Query failed safety validation") }
      ∧ execute_query_node (fun _ => Except.error "e")
          { mkInitState "q" with generated_sql := some "SELECT 1" }
        = execute_query_node (fun _ => Except.ok ([], 0))
            { mkInitState "q" with generated_sql := some "SELECT 1" }) :=
  ⟨by decide,
   executor_refuses_unvalidated (fun _ => Except.error "e")
     (fun _ => Except.ok ([], 0)) _ (by decide)⟩

/-- C10: with `generated_sql` absent or empty the validator short-circuits,
returning exactly `is_safe = False` and the single error
`"No SQL query to validate"` (no other check runs, no other key is set). -/
theorem validator_short_circuits_empty_sql (s : SQLSubgraphState)
    (h : s.generated_sql = none ∨ s.generated_sql = some "") :
    validate_query_node s =
      { emptyUpdate with
          is_safe := some false
          validation_errors := some ["No SQL query to validate"] } := by
  rcases h with h | h
  · unfold validate_query_node
    rw [h]
  · unfold validate_query_node
    rw [h]
    rfl

theorem validator_short_circuits_empty_sql_witness :
    validate_query_node (mkInitState "q") =
      { emptyUpdate with
          is_safe := some false
          validation_errors := some ["No SQL query to validate"] } :=
  validator_short_circuits_empty_sql _ (Or.inl rfl)

end SqlSubgraph
